import Mathlib

/-
Verification of the snitch-detective matching engine.

The development shallowly embeds `src/detective.rs` (the dispatcher,
request validator and the two field-extraction accessors) together with
the collaborating pieces that the repository uses but whose sources are
not part of the excerpt (the numeric matcher, the core and PII
validators, the `CustomError` type, the `FromValue` trait and the JSON
path-lookup of the `ajson` crate).  Pieces missing from the excerpt are
modelled from the specification; each such definition carries a doc
comment saying so.

Conventions: Rust `Result<T, CustomError>` becomes `Except CustomError T`;
byte buffers become `List Nat`; the protobuf `EnumOrUnknown<MatchType>`
field becomes `MatchTypeWire`.
-/

/-! ## Exact decimal numbers

Modelled from the spec (§3, §4.3): field and operand numbers are
normalized to a common comparable numeric representation "without
precision loss for the ranges used"; we use exact decimals `m / 10 ^ s`. -/

/-- Decimal number with value `m / 10 ^ s`. -/
structure DecNum where
  m : Int
  s : Nat
deriving DecidableEq

/-- Equality of decimals by cross-multiplication. -/
def DecNum.beq (a b : DecNum) : Bool :=
  a.m * (10 : Int) ^ b.s == b.m * (10 : Int) ^ a.s

/-- Strict order on decimals by cross-multiplication. -/
def DecNum.blt (a b : DecNum) : Bool :=
  decide (a.m * (10 : Int) ^ b.s < b.m * (10 : Int) ^ a.s)

/-- Non-strict order on decimals by cross-multiplication. -/
def DecNum.ble (a b : DecNum) : Bool :=
  decide (a.m * (10 : Int) ^ b.s ≤ b.m * (10 : Int) ^ a.s)

/-! ## JSON documents -/

/-- Tagged JSON value (the spec's `ExtractedValue`, §3): null, boolean,
number, string, array or object. -/
inductive Json where
  | null
  | bool (b : Bool)
  | num (n : DecNum)
  | str (s : String)
  | arr (elems : List Json)
  | obj (fields : List (String × Json))

/-! ## UTF-8 decoding

Models Rust's `str::from_utf8`: strict UTF-8 validation (continuation
ranges, overlong forms, surrogates and the `0x10FFFF` ceiling). -/

/-- Check for a UTF-8 continuation byte. -/
def contByte (b : Nat) : Bool := 128 ≤ b && b ≤ 191

/-- Decode a byte sequence as UTF-8, or `none` if it is invalid
(models `str::from_utf8` succeeding or failing). -/
def utf8Decode : List Nat → Option (List Char)
  | [] => some []
  | b :: rest =>
    if b < 128 then (utf8Decode rest).map (fun cs => Char.ofNat b :: cs)
    else if 194 ≤ b && b ≤ 223 then
      match rest with
      | b2 :: rest2 =>
        if contByte b2 then
          (utf8Decode rest2).map (fun cs => Char.ofNat ((b - 192) * 64 + (b2 - 128)) :: cs)
        else none
      | [] => none
    else if 224 ≤ b && b ≤ 239 then
      match rest with
      | b2 :: b3 :: rest3 =>
        let lo2 : Nat := if b == 224 then 160 else 128
        let hi2 : Nat := if b == 237 then 159 else 191
        if lo2 ≤ b2 && b2 ≤ hi2 && contByte b3 then
          (utf8Decode rest3).map
            (fun cs => Char.ofNat ((b - 224) * 4096 + (b2 - 128) * 64 + (b3 - 128)) :: cs)
        else none
      | _ => none
    else if 240 ≤ b && b ≤ 244 then
      match rest with
      | b2 :: b3 :: b4 :: rest4 =>
        let lo2 : Nat := if b == 240 then 144 else 128
        let hi2 : Nat := if b == 244 then 143 else 191
        if lo2 ≤ b2 && b2 ≤ hi2 && contByte b3 && contByte b4 then
          (utf8Decode rest4).map
            (fun cs =>
              Char.ofNat ((b - 240) * 262144 + (b2 - 128) * 4096 + (b3 - 128) * 64 + (b4 - 128)) :: cs)
        else none
      | _ => none
    else none

/-- Encode one character as UTF-8 bytes (caller-side helper used to build
concrete `data` buffers in examples). -/
def utf8EncodeChar (c : Char) : List Nat :=
  let n := c.toNat
  if n < 128 then [n]
  else if n < 2048 then [192 + n / 64, 128 + n % 64]
  else if n < 65536 then [224 + n / 4096, 128 + (n / 64) % 64, 128 + n % 64]
  else [240 + n / 262144, 128 + (n / 4096) % 64, 128 + (n / 64) % 64, 128 + n % 64]

/-- Encode a string as UTF-8 bytes. -/
def utf8Encode (s : String) : List Nat :=
  (s.data.map utf8EncodeChar).flatten

/-! ## JSON parsing

Modelled from the spec (§6): `data` is a "UTF-8-encoded, JSON-shaped
document"; this is a plain JSON grammar (objects, arrays, strings,
decimal numbers, booleans, null) standing in for `ajson`'s document
reader.  Number literals are sign, integer digits and an optional
fractional part; string escapes are modelled as backslash followed by
the literal character. -/

/-- Opening brace character. -/
def lbrace : Char := Char.ofNat 123

/-- Closing brace character. -/
def rbrace : Char := Char.ofNat 125

/-- Drop leading JSON whitespace. -/
def skipWs (cs : List Char) : List Char :=
  cs.dropWhile (fun c => c == ' ' || c == '\n' || c == '\t' || c == '\r')

/-- Scan the body of a JSON string literal (after the opening quote). -/
def scanStr (acc : List Char) : List Char → Option (String × List Char)
  | [] => none
  | '\\' :: c :: rest => scanStr (c :: acc) rest
  | '"' :: rest => some (⟨acc.reverse⟩, rest)
  | c :: rest => scanStr (c :: acc) rest

/-- Numeric value of a digit string. -/
def digitsToNat (ds : List Char) : Nat :=
  ds.foldl (fun acc c => acc * 10 + (c.toNat - 48)) 0

/-- Scan a decimal number literal: sign, digits, optional fraction. -/
def scanNum (cs : List Char) : Option (DecNum × List Char) :=
  let (neg, cs1) := match cs with
    | '-' :: rest => (true, rest)
    | _ => (false, cs)
  let (ds, cs2) := cs1.span Char.isDigit
  if ds.isEmpty then none
  else
    match cs2 with
    | '.' :: cs3 =>
      let (fs, cs4) := cs3.span Char.isDigit
      if fs.isEmpty then none
      else
        let mag : Nat := digitsToNat (ds ++ fs)
        some ({ m := if neg then -(mag : Int) else (mag : Int), s := fs.length }, cs4)
    | _ =>
      let mag : Nat := digitsToNat ds
      some ({ m := if neg then -(mag : Int) else (mag : Int), s := 0 }, cs2)

/-- Scan the members of a JSON object (after the opening brace), given a
value scanner `pval` and loop fuel. -/
def scanMembers (pval : List Char → Option (Json × List Char)) :
    Nat → List Char → Option (List (String × Json) × List Char)
  | 0, _ => none
  | fuel + 1, cs =>
    match skipWs cs with
    | '"' :: rest =>
      match scanStr [] rest with
      | none => none
      | some (k, cs1) =>
        match skipWs cs1 with
        | ':' :: cs2 =>
          match pval (skipWs cs2) with
          | none => none
          | some (v, cs3) =>
            match skipWs cs3 with
            | ',' :: cs4 =>
              (scanMembers pval fuel cs4).map (fun p => ((k, v) :: p.1, p.2))
            | c :: cs4 => if c == rbrace then some ([(k, v)], cs4) else none
            | [] => none
        | _ => none
    | _ => none

/-- Scan the elements of a JSON array (after the opening bracket), given
a value scanner `pval` and loop fuel. -/
def scanElems (pval : List Char → Option (Json × List Char)) :
    Nat → List Char → Option (List Json × List Char)
  | 0, _ => none
  | fuel + 1, cs =>
    match pval (skipWs cs) with
    | none => none
    | some (v, cs1) =>
      match skipWs cs1 with
      | ',' :: cs2 => (scanElems pval fuel cs2).map (fun p => (v :: p.1, p.2))
      | ']' :: cs2 => some ([v], cs2)
      | _ => none

/-- Scan one JSON value; the fuel bounds nesting depth. -/
def scanVal : Nat → List Char → Option (Json × List Char)
  | 0, _ => none
  | fuel + 1, input =>
    match skipWs input with
    | 'n' :: 'u' :: 'l' :: 'l' :: rest => some (.null, rest)
    | 't' :: 'r' :: 'u' :: 'e' :: rest => some (.bool true, rest)
    | 'f' :: 'a' :: 'l' :: 's' :: 'e' :: rest => some (.bool false, rest)
    | '"' :: rest => (scanStr [] rest).map (fun p => (.str p.1, p.2))
    | '[' :: rest =>
      match skipWs rest with
      | ']' :: tl => some (.arr [], tl)
      | cs => (scanElems (scanVal fuel) (cs.length + 1) cs).map (fun p => (.arr p.1, p.2))
    | c :: rest =>
      if c == lbrace then
        match skipWs rest with
        | c2 :: tl2 =>
          if c2 == rbrace then some (.obj [], tl2)
          else
            (scanMembers (scanVal fuel) (tl2.length + 2) (c2 :: tl2)).map
              (fun p => (.obj p.1, p.2))
        | [] => none
      else (scanNum (c :: rest)).map (fun p => (.num p.1, p.2))
    | [] => none

/-- Parse a whole character sequence as one JSON document. -/
def parseJsonText (cs : List Char) : Option Json :=
  match scanVal (cs.length + 1) cs with
  | some (j, rest) => if (skipWs rest).isEmpty then some j else none
  | none => none

/-! ## Path resolution

Modelled from the spec (§4.1, §6): the path is a dotted field-path
expression resolved segment by segment; a segment selects an object
member by key, or an array element when the segment is an index.  A
malformed path (empty, or containing an empty segment) is a path-syntax
error, reported as `none` by `splitPath`. -/

/-- Split a path on dots; `none` when the path is malformed (empty path
or an empty segment). -/
def splitPathAux (acc : List Char) : List Char → Option (List String)
  | [] => if acc.isEmpty then none else some [⟨acc.reverse⟩]
  | '.' :: rest =>
    if acc.isEmpty then none
    else (splitPathAux [] rest).map (fun segs => (⟨acc.reverse⟩ : String) :: segs)
  | c :: rest => splitPathAux (c :: acc) rest

/-- Segments of a path expression, or `none` when it is malformed. -/
def splitPath (path : String) : Option (List String) :=
  splitPathAux [] path.data

/-- Look up an object member by key (first match). -/
def lookupField (seg : String) : List (String × Json) → Option Json
  | [] => none
  | (k, v) :: rest => if k == seg then some v else lookupField seg rest

/-- Parse a path segment as an array index. -/
def parseIdx (cs : List Char) : Option Nat :=
  if cs.isEmpty then none
  else if cs.all Char.isDigit then some (digitsToNat cs) else none

/-- Resolve a segment list against a document; `none` when the path
resolves to no node. -/
def resolvePath : List String → Json → Option Json
  | [], j => some j
  | seg :: rest, .obj fields =>
    match lookupField seg fields with
    | some v => resolvePath rest v
    | none => none
  | seg :: rest, .arr elems =>
    match parseIdx seg.data with
    | some i =>
      match elems.get? i with
      | some v => resolvePath rest v
      | none => none
    | none => none
  | _ :: _, _ => none

/-- Modelled from the spec: `ajson::get` (§4.1, §6) — resolve a dotted
path expression against the text of a JSON document.  An ill-formed path
expression is an error; a document in which the path selects no node
(including unparseable text) yields `none`; otherwise the selected value
is returned. -/
def ajsonGet (doc : List Char) (path : String) : Except String (Option Json) :=
  match splitPath path with
  | none => .error ("invalid path expression: " ++ path)
  | some segs =>
    match parseJsonText doc with
    | none => .ok none
    | some j => .ok (resolvePath segs j)

/-! ## Errors and field extraction (`src/detective.rs`) -/

/-- Modelled from the spec: the repository's `CustomError` type
(declared in the crate's error module, outside the excerpt).  The three
constructors are the ones `detective.rs` uses: a generic message error,
a match-type validation error, and the missing-match-type wrapper around
the raw enum value. -/
inductive CustomError where
  | Error (m : String)
  | MatchError (m : String)
  | MissingMatchType (v : Int)
deriving DecidableEq

/-- Single-quote character, used in the source message formatting. -/
def squote : String := String.singleton (Char.ofNat 39)

/-- Message of the decode failure in `parse_field` / `parse_field_value`
("unable to convert bytes to string: {e}"); the Rust `Utf8Error` detail
is modelled by a fixed description. -/
def utf8ErrorMsg : String := "unable to convert bytes to string: invalid utf-8 sequence"

/-- Message "path '{path}' not found in data" from `detective.rs`. -/
def pathNotFoundMsg (path : String) : String :=
  "path " ++ squote ++ path ++ squote ++ " not found in data"

/-- Message "error parsing field: {e}" from `detective.rs`. -/
def fieldErrMsg (e : String) : String := "error parsing field: " ++ e

/-- Modelled from the spec: the repository's `FromValue` trait (§9) — a
closed conversion capability `from_value : ExtractedValue -> Result<T>`
implemented per scalar type. -/
class FromValue (α : Type) where
  from_value : Json → Except CustomError α

/-- Modelled from the spec: numeric conversion (§4.1, §4.3) — a JSON
number converts directly, and a string node converts when it is
numeric-looking; anything else is a type mismatch. -/
instance : FromValue DecNum :=
  ⟨fun v =>
    match v with
    | .num d => .ok d
    | .str s =>
      match scanNum s.data with
      | some (d, []) => .ok d
      | _ => .error (.Error ("unable to convert value to number: " ++ s))
    | _ => .error (.Error "field value is not a number")⟩

/-- Modelled from the spec: boolean conversion (§4.4 boolean-true /
boolean-false — "type-mismatch if not boolean"). -/
instance : FromValue Bool :=
  ⟨fun v =>
    match v with
    | .bool b => .ok b
    | _ => .error (.Error "field value is not a boolean")⟩

/-- Modelled from the spec: string conversion (§4.5 — "type-mismatch
error if the field is not string-coercible"). -/
instance : FromValue String :=
  ⟨fun v =>
    match v with
    | .str s => .ok s
    | _ => .error (.Error "field value is not a string")⟩

/-- Translation of `parse_field` (src/detective.rs:84-96): decode the
data as UTF-8, resolve the path with `ajson::get`, and coerce the
resolved value through `T::from_value`. -/
def parse_field (α : Type) [FromValue α] (data : List Nat) (path : String) :
    Except CustomError α :=
  match utf8Decode data with
  | none => .error (.Error utf8ErrorMsg)
  | some cs =>
    match ajsonGet cs path with
    | .ok (some value) => FromValue.from_value value
    | .ok none => .error (.Error (pathNotFoundMsg path))
    | .error e => .error (.Error (fieldErrMsg e))

/-- Translation of `parse_field_value` (src/detective.rs:98-110): decode
the data as UTF-8 and resolve the path with `ajson::get`, returning the
raw tagged value. -/
def parse_field_value (data : List Nat) (path : String) : Except CustomError Json :=
  match utf8Decode data with
  | none => .error (.Error utf8ErrorMsg)
  | some cs =>
    match ajsonGet cs path with
    | .ok (some value) => .ok value
    | .ok none => .error (.Error (pathNotFoundMsg path))
    | .error e => .error (.Error (fieldErrMsg e))

/-! ## The match-type enumeration (`protos::matcher::MatchType`) -/

/-- Match-type enumeration, with exactly the variants `detective.rs`
dispatches over plus the explicit unknown sentinel. -/
inductive MatchType where
  | MATCH_TYPE_UNKNOWN
  | MATCH_TYPE_NUMERIC_EQUAL_TO
  | MATCH_TYPE_NUMERIC_GREATER_EQUAL
  | MATCH_TYPE_NUMERIC_GREATER_THAN
  | MATCH_TYPE_NUMERIC_LESS_EQUAL
  | MATCH_TYPE_NUMERIC_LESS_THAN
  | MATCH_TYPE_STRING_EQUAL
  | MATCH_TYPE_STRING_CONTAINS_ANY
  | MATCH_TYPE_STRING_CONTAINS_ALL
  | MATCH_TYPE_IPV4_ADDRESS
  | MATCH_TYPE_IPV6_ADDRESS
  | MATCH_TYPE_REGEX
  | MATCH_TYPE_TIMESTAMP_RFC3339
  | MATCH_TYPE_TIMESTAMP_UNIX_NANO
  | MATCH_TYPE_TIMESTAMP_UNIX
  | MATCH_TYPE_BOOLEAN_FALSE
  | MATCH_TYPE_BOOLEAN_TRUE
  | MATCH_TYPE_IS_EMPTY
  | MATCH_TYPE_HAS_FIELD
  | MATCH_TYPE_IS_TYPE
  | MATCH_TYPE_UUID
  | MATCH_TYPE_MAC_ADDRESS
  | MATCH_TYPE_PII_ANY
  | MATCH_TYPE_PII_CREDIT_CARD
  | MATCH_TYPE_PII_SSN
  | MATCH_TYPE_PII_EMAIL
  | MATCH_TYPE_PII_PHONE
  | MATCH_TYPE_PII_DRIVER_LICENSE
  | MATCH_TYPE_PII_PASSPORT_ID
  | MATCH_TYPE_PII_VIN_NUMBER
  | MATCH_TYPE_PII_SERIAL_NUMBER
  | MATCH_TYPE_PII_LOGIN
  | MATCH_TYPE_PII_TAXPAYER_ID
  | MATCH_TYPE_PII_ADDRESS
  | MATCH_TYPE_PII_SIGNATURE
  | MATCH_TYPE_PII_GEOLOCATION
  | MATCH_TYPE_PII_EDUCATION
  | MATCH_TYPE_PII_FINANCIAL
  | MATCH_TYPE_PII_HEALTH
deriving DecidableEq

/-- Rust `Debug` rendering of a `MatchType` value (`{:?}`). -/
def MatchType.debugStr : MatchType → String
  | .MATCH_TYPE_UNKNOWN => "MATCH_TYPE_UNKNOWN"
  | .MATCH_TYPE_NUMERIC_EQUAL_TO => "MATCH_TYPE_NUMERIC_EQUAL_TO"
  | .MATCH_TYPE_NUMERIC_GREATER_EQUAL => "MATCH_TYPE_NUMERIC_GREATER_EQUAL"
  | .MATCH_TYPE_NUMERIC_GREATER_THAN => "MATCH_TYPE_NUMERIC_GREATER_THAN"
  | .MATCH_TYPE_NUMERIC_LESS_EQUAL => "MATCH_TYPE_NUMERIC_LESS_EQUAL"
  | .MATCH_TYPE_NUMERIC_LESS_THAN => "MATCH_TYPE_NUMERIC_LESS_THAN"
  | .MATCH_TYPE_STRING_EQUAL => "MATCH_TYPE_STRING_EQUAL"
  | .MATCH_TYPE_STRING_CONTAINS_ANY => "MATCH_TYPE_STRING_CONTAINS_ANY"
  | .MATCH_TYPE_STRING_CONTAINS_ALL => "MATCH_TYPE_STRING_CONTAINS_ALL"
  | .MATCH_TYPE_IPV4_ADDRESS => "MATCH_TYPE_IPV4_ADDRESS"
  | .MATCH_TYPE_IPV6_ADDRESS => "MATCH_TYPE_IPV6_ADDRESS"
  | .MATCH_TYPE_REGEX => "MATCH_TYPE_REGEX"
  | .MATCH_TYPE_TIMESTAMP_RFC3339 => "MATCH_TYPE_TIMESTAMP_RFC3339"
  | .MATCH_TYPE_TIMESTAMP_UNIX_NANO => "MATCH_TYPE_TIMESTAMP_UNIX_NANO"
  | .MATCH_TYPE_TIMESTAMP_UNIX => "MATCH_TYPE_TIMESTAMP_UNIX"
  | .MATCH_TYPE_BOOLEAN_FALSE => "MATCH_TYPE_BOOLEAN_FALSE"
  | .MATCH_TYPE_BOOLEAN_TRUE => "MATCH_TYPE_BOOLEAN_TRUE"
  | .MATCH_TYPE_IS_EMPTY => "MATCH_TYPE_IS_EMPTY"
  | .MATCH_TYPE_HAS_FIELD => "MATCH_TYPE_HAS_FIELD"
  | .MATCH_TYPE_IS_TYPE => "MATCH_TYPE_IS_TYPE"
  | .MATCH_TYPE_UUID => "MATCH_TYPE_UUID"
  | .MATCH_TYPE_MAC_ADDRESS => "MATCH_TYPE_MAC_ADDRESS"
  | .MATCH_TYPE_PII_ANY => "MATCH_TYPE_PII_ANY"
  | .MATCH_TYPE_PII_CREDIT_CARD => "MATCH_TYPE_PII_CREDIT_CARD"
  | .MATCH_TYPE_PII_SSN => "MATCH_TYPE_PII_SSN"
  | .MATCH_TYPE_PII_EMAIL => "MATCH_TYPE_PII_EMAIL"
  | .MATCH_TYPE_PII_PHONE => "MATCH_TYPE_PII_PHONE"
  | .MATCH_TYPE_PII_DRIVER_LICENSE => "MATCH_TYPE_PII_DRIVER_LICENSE"
  | .MATCH_TYPE_PII_PASSPORT_ID => "MATCH_TYPE_PII_PASSPORT_ID"
  | .MATCH_TYPE_PII_VIN_NUMBER => "MATCH_TYPE_PII_VIN_NUMBER"
  | .MATCH_TYPE_PII_SERIAL_NUMBER => "MATCH_TYPE_PII_SERIAL_NUMBER"
  | .MATCH_TYPE_PII_LOGIN => "MATCH_TYPE_PII_LOGIN"
  | .MATCH_TYPE_PII_TAXPAYER_ID => "MATCH_TYPE_PII_TAXPAYER_ID"
  | .MATCH_TYPE_PII_ADDRESS => "MATCH_TYPE_PII_ADDRESS"
  | .MATCH_TYPE_PII_SIGNATURE => "MATCH_TYPE_PII_SIGNATURE"
  | .MATCH_TYPE_PII_GEOLOCATION => "MATCH_TYPE_PII_GEOLOCATION"
  | .MATCH_TYPE_PII_EDUCATION => "MATCH_TYPE_PII_EDUCATION"
  | .MATCH_TYPE_PII_FINANCIAL => "MATCH_TYPE_PII_FINANCIAL"
  | .MATCH_TYPE_PII_HEALTH => "MATCH_TYPE_PII_HEALTH"

/-- Wire representation of the match-type field (protobuf
`EnumOrUnknown<MatchType>`): either a known variant or an unrecognized
raw value. -/
inductive MatchTypeWire where
  | known (t : MatchType)
  | unknownValue (n : Int)
deriving DecidableEq

/-- Translation of `EnumOrUnknown::enum_value`: `Ok` on a recognized
variant, `Err` carrying the raw value otherwise. -/
def MatchTypeWire.enum_value : MatchTypeWire → Except Int MatchType
  | .known t => .ok t
  | .unknownValue n => .error n

/-- The `MatchRequest` message (§3): match type, path, data bytes,
operand values and the negate flag. -/
structure MatchRequest where
  type_ : MatchTypeWire
  path : String
  data : List Nat
  values : List String
  negate : Bool

/-- Translation of `validate_match_request` (src/detective.rs:112-139):
reject an undecodable match type, the unknown sentinel, an empty path
and empty data, in that order. -/
def validate_match_request (r : MatchRequest) : Except CustomError Unit :=
  match r.type_.enum_value with
  | .error v => .error (.MatchError ("unexpected match type: " ++ toString v))
  | .ok value =>
    if value = MatchType.MATCH_TYPE_UNKNOWN then
      .error (.MatchError ("unknown match type: " ++ value.debugStr))
    else if r.path.isEmpty then .error (.Error "path cannot be empty")
    else if r.data.isEmpty then .error (.Error "data cannot be empty")
    else .ok ()

/-! ## Shared validator plumbing

Modelled from the spec (§4.4): "Each validator extracts the field then
applies a self-contained rule; all share the not-found/parse-error
propagation from §4.1 and the outer `negate` semantics." -/

/-- Post-hoc negation of a computed boolean (§3: `negate` inverts the
final result after it is computed; an error is never negated). -/
def applyNegate (neg b : Bool) : Bool := if neg then !b else b

/-- Run a validator of the shared shape: extract the raw field value,
apply the rule, then apply `negate` to the successful boolean. -/
def runFieldRule (rule : MatchRequest → Json → Except CustomError Bool)
    (r : MatchRequest) : Except CustomError Bool :=
  match parse_field_value r.data r.path with
  | .error e => .error e
  | .ok v =>
    match rule r v with
    | .error e => .error e
    | .ok b => .ok (applyNegate r.negate b)

/-- Coerce an extracted value to a string through `FromValue`. -/
def asString (v : Json) : Except CustomError String := FromValue.from_value v

/-- Coerce an extracted value to a boolean through `FromValue`. -/
def asBool (v : Json) : Except CustomError Bool := FromValue.from_value v

/-! ## Character and string helpers for the modelled validators -/

/-- Prefix test on character lists. -/
def prefixOfList : List Char → List Char → Bool
  | [], _ => true
  | _ :: _, [] => false
  | a :: xs, b :: ys => a == b && prefixOfList xs ys

/-- Infix test on character lists. -/
def infixOfList (needle : List Char) : List Char → Bool
  | [] => needle.isEmpty
  | c :: cs => prefixOfList needle (c :: cs) || infixOfList needle cs

/-- Substring containment. -/
def containsSub (hay needle : String) : Bool := infixOfList needle.data hay.data

/-- Split a character list on a separator, keeping empty parts. -/
def splitOnChar (sep : Char) : List Char → List (List Char)
  | [] => [[]]
  | c :: rest =>
    let r := splitOnChar sep rest
    if c == sep then [] :: r
    else
      match r with
      | h :: t => (c :: h) :: t
      | [] => [[c]]

/-- Lower-case an ASCII character. -/
def lowerChar (c : Char) : Char :=
  if 'A' ≤ c && c ≤ 'Z' then Char.ofNat (c.toNat + 32) else c

/-- Lower-case an ASCII string. -/
def lowerStr (s : String) : String := ⟨s.data.map lowerChar⟩

/-- Hexadecimal digit test. -/
def hexDigit (c : Char) : Bool :=
  c.isDigit || ('a' ≤ c && c ≤ 'f') || ('A' ≤ c && c ≤ 'F')

/-- Numeric value of a two-digit group. -/
def toNat2 (a b : Char) : Nat := digitsToNat [a, b]

/-! ## Core validator predicates

All modelled from the spec (§4.4 table); the regex dialect is left open
by the spec (§9) and is modelled as literal matching with a `.` wildcard
and `^` / `$` anchors, under search semantics. -/

/-- Dotted-quad IPv4 textual form: four decimal octets, each at most
255, without leading zeros. -/
def isIpv4 (s : String) : Bool :=
  let parts := splitOnChar '.' s.data
  parts.length == 4 && parts.all (fun p =>
    1 ≤ p.length && p.length ≤ 3 && p.all Char.isDigit && digitsToNat p ≤ 255 &&
      (p.length == 1 || p.head? ≠ some '0'))

/-- IPv6 textual form: colon-separated groups of at most four hex
digits, eight groups, or fewer with a `::` compression (modelled
leniently). -/
def isIpv6 (s : String) : Bool :=
  let groups := splitOnChar ':' s.data
  let nonEmpty := groups.filter (fun g => !g.isEmpty)
  let emp := groups.length - nonEmpty.length
  nonEmpty.all (fun g => 1 ≤ g.length && g.length ≤ 4 && g.all hexDigit) &&
    (if emp == 0 then groups.length == 8 else emp ≤ 3 && nonEmpty.length ≤ 7)

/-- Match a pattern at the start of the text (`.` wildcard, `$` end
anchor, other characters literal). -/
def reMatchHere : List Char → List Char → Bool
  | [], _ => true
  | ['$'], [] => true
  | ['$'], _ :: _ => false
  | p :: ps, c :: cs => (p == '.' || p == c) && reMatchHere ps cs
  | _ :: _, [] => false

/-- Search the pattern at every position of the text. -/
def reSearch (pat : List Char) : List Char → Bool
  | [] => reMatchHere pat []
  | c :: cs => reMatchHere pat (c :: cs) || reSearch pat cs

/-- Search-semantics match of the modelled pattern dialect. -/
def regexLite (pat s : String) : Bool :=
  match pat.data with
  | '^' :: rest => reMatchHere rest s.data
  | p => reSearch p s.data

/-- Offset tail of an RFC3339 timestamp: `Z` or a signed `hh:mm`. -/
def rfcOffset : List Char → Bool
  | ['Z'] => true
  | ['z'] => true
  | [sgn, h1, h2, ':', m1, m2] =>
    (sgn == '+' || sgn == '-') && [h1, h2, m1, m2].all Char.isDigit &&
      toNat2 h1 h2 ≤ 23 && toNat2 m1 m2 ≤ 59
  | _ => false

/-- Optional fractional seconds followed by the offset. -/
def rfcAfterSec (cs : List Char) : Bool :=
  match cs with
  | '.' :: rest =>
    let (fs, r) := rest.span Char.isDigit
    !fs.isEmpty && rfcOffset r
  | _ => rfcOffset cs

/-- RFC3339 timestamp textual form with field-range checks. -/
def isRfc3339 (s : String) : Bool :=
  match s.data with
  | y1 :: y2 :: y3 :: y4 :: '-' :: m1 :: m2 :: '-' :: d1 :: d2 :: t
      :: h1 :: h2 :: ':' :: mi1 :: mi2 :: ':' :: s1 :: s2 :: rest =>
    [y1, y2, y3, y4, m1, m2, d1, d2, h1, h2, mi1, mi2, s1, s2].all Char.isDigit &&
      (t == 'T' || t == 't' || t == ' ') &&
      1 ≤ toNat2 m1 m2 && toNat2 m1 m2 ≤ 12 &&
      1 ≤ toNat2 d1 d2 && toNat2 d1 d2 ≤ 31 &&
      toNat2 h1 h2 ≤ 23 && toNat2 mi1 mi2 ≤ 59 && toNat2 s1 s2 ≤ 60 &&
      rfcAfterSec rest
  | _ => false

/-- Canonical 8-4-4-4-12 hexadecimal UUID grouping. -/
def isUuid (s : String) : Bool :=
  match splitOnChar '-' s.data with
  | [a, b, c, d, e] =>
    a.length == 8 && b.length == 4 && c.length == 4 && d.length == 4 &&
      e.length == 12 && (a ++ b ++ c ++ d ++ e).all hexDigit
  | _ => false

/-- Standard MAC textual form: six two-hex-digit octets, colon- or
hyphen-delimited. -/
def isMac (s : String) : Bool :=
  let check := fun (groups : List (List Char)) =>
    groups.length == 6 && groups.all (fun g => g.length == 2 && g.all hexDigit)
  check (splitOnChar ':' s.data) || check (splitOnChar '-' s.data)

/-- Runtime tag name of an extracted value (§4.4 is-type). -/
def typeTag : Json → String
  | .null => "null"
  | .bool _ => "bool"
  | .num _ => "number"
  | .str _ => "string"
  | .arr _ => "array"
  | .obj _ => "object"

/-! ## PII predicates

Modelled from the spec (§4.5): each category combines a structural
pattern with a checksum or range rule where the category defines one
(credit card: Luhn; SSN: disallowed area/group/serial ranges; VIN:
check digit).  For the categories whose exact format the spec leaves
open (§9), a plausible light format check is modelled. -/

/-- Luhn mod-10 sum of a digit sequence (most significant first). -/
def luhnSum (digits : List Nat) : Nat :=
  (digits.reverse.enum.map (fun p =>
    if p.1 % 2 == 1 then
      let dd := p.2 * 2
      if dd > 9 then dd - 9 else dd
    else p.2)).sum

/-- Credit-card number: 13-19 digits (spaces and hyphens ignored)
passing the Luhn checksum. -/
def isCreditCard (s : String) : Bool :=
  let ds := s.data.filter (fun c => !(c == ' ' || c == '-'))
  !ds.isEmpty && ds.all Char.isDigit && 13 ≤ ds.length && ds.length ≤ 19 &&
    luhnSum (ds.map (fun c => c.toNat - 48)) % 10 == 0

/-- SSN grouping NNN-NN-NNNN with area not 000/666/900-999, group not
00 and serial not 0000. -/
def isSsn (s : String) : Bool :=
  match s.data with
  | [a1, a2, a3, '-', g1, g2, '-', r1, r2, r3, r4] =>
    [a1, a2, a3, g1, g2, r1, r2, r3, r4].all Char.isDigit &&
      (let area := digitsToNat [a1, a2, a3]
       let grp := digitsToNat [g1, g2]
       let ser := digitsToNat [r1, r2, r3, r4]
       area ≠ 0 && area ≠ 666 && area < 900 && grp ≠ 0 && ser ≠ 0)
  | _ => false

/-- Email shape: local part, `@`, dotted domain labels, alphabetic
top-level label. -/
def isEmail (s : String) : Bool :=
  match splitOnChar '@' s.data with
  | [loc, domain] =>
    !loc.isEmpty &&
      loc.all (fun c => c.isAlphanum || c == '.' || c == '_' || c == '%' || c == '+' || c == '-') &&
      (let labels := splitOnChar '.' domain
       2 ≤ labels.length &&
         labels.all (fun l =>
           !l.isEmpty && l.all (fun c => c.isAlphanum || c == '-') &&
             l.head? ≠ some '-' && l.getLast? ≠ some '-') &&
         (match labels.getLast? with
          | some tld => 2 ≤ tld.length && tld.all Char.isAlpha
          | none => false))
  | _ => false

/-- Phone shape: optional `+`, then digits with common separators,
7-15 digits total. -/
def isPhone (s : String) : Bool :=
  let rest := match s.data with
    | '+' :: r => r
    | cs => cs
  let digits := rest.filter Char.isDigit
  rest.all (fun c => c.isDigit || c == ' ' || c == '-' || c == '(' || c == ')' || c == '.') &&
    7 ≤ digits.length && digits.length ≤ 15

/-- VIN transliteration value of a character (I, O and Q excluded). -/
def vinCharVal (c : Char) : Option Nat :=
  if c.isDigit then some (c.toNat - 48)
  else
    match c with
    | 'A' => some 1 | 'B' => some 2 | 'C' => some 3 | 'D' => some 4
    | 'E' => some 5 | 'F' => some 6 | 'G' => some 7 | 'H' => some 8
    | 'J' => some 1 | 'K' => some 2 | 'L' => some 3 | 'M' => some 4
    | 'N' => some 5 | 'P' => some 7 | 'R' => some 9
    | 'S' => some 2 | 'T' => some 3 | 'U' => some 4 | 'V' => some 5
    | 'W' => some 6 | 'X' => some 7 | 'Y' => some 8 | 'Z' => some 9
    | _ => none

/-- VIN: 17 transliterable characters with the standard weighted check
digit at position 9. -/
def isVin (s : String) : Bool :=
  let cs := s.data
  cs.length == 17 && cs.all (fun c => (vinCharVal c).isSome) &&
    (let vals := cs.map (fun c => (vinCharVal c).getD 0)
     let weights := [8, 7, 6, 5, 4, 3, 2, 10, 0, 9, 8, 7, 6, 5, 4, 3, 2]
     let chk := ((vals.zip weights).map (fun p => p.1 * p.2)).sum % 11
     match cs.get? 8 with
     | some c => if chk == 10 then c == 'X' else c.isDigit && c.toNat - 48 == chk
     | none => false)

/-- Keyword search (case-insensitive substring). -/
def keywordAny (kws : List String) (s : String) : Bool :=
  let l := lowerStr s
  kws.any (fun k => containsSub l k)

/-- Driver's license (open format, §9): 5-13 alphanumerics including a
digit. -/
def isDriversLicense (s : String) : Bool :=
  5 ≤ s.data.length && s.data.length ≤ 13 && s.data.all Char.isAlphanum &&
    s.data.any Char.isDigit

/-- Passport ID (open format, §9): 6-9 alphanumerics including a digit. -/
def isPassportId (s : String) : Bool :=
  6 ≤ s.data.length && s.data.length ≤ 9 && s.data.all Char.isAlphanum &&
    s.data.any Char.isDigit

/-- Taxpayer ID (open format, §9): SSN grouping, nine digits, or EIN
grouping NN-NNNNNNN. -/
def isTaxpayerId (s : String) : Bool :=
  isSsn s || (s.data.length == 9 && s.data.all Char.isDigit) ||
    (match s.data with
     | [e1, e2, '-', f1, f2, f3, f4, f5, f6, f7] =>
       [e1, e2, f1, f2, f3, f4, f5, f6, f7].all Char.isDigit
     | _ => false)

/-- Serial number (open format, §9): at least six characters of
alphanumerics and hyphens mixing letters and digits. -/
def isSerialNumber (s : String) : Bool :=
  6 ≤ s.data.length && s.data.all (fun c => c.isAlphanum || c == '-') &&
    s.data.any Char.isDigit && s.data.any Char.isAlpha

/-- Login (open format, §9): 3-20 word characters starting with a
letter. -/
def isLogin (s : String) : Bool :=
  3 ≤ s.data.length && s.data.length ≤ 20 &&
    s.data.all (fun c => c.isAlphanum || c == '_' || c == '.') &&
    (match s.data.head? with
     | some c => c.isAlpha
     | none => false)

/-- Street address (open format, §9): contains a number and a street
keyword. -/
def isAddress (s : String) : Bool :=
  s.data.any Char.isDigit &&
    keywordAny ["street", " st", " ave", "avenue", " rd", "road", "boulevard",
      "blvd", "lane", " ln", "drive", " dr"] s

/-- Signature (open format, §9): a conformed-signature marker or the
word itself. -/
def isSignature (s : String) : Bool := keywordAny ["/s/", "signature"] s

/-- Strip the spaces around a character list. -/
def trimSpaces (cs : List Char) : List Char :=
  ((cs.dropWhile (fun c => c == ' ')).reverse.dropWhile (fun c => c == ' ')).reverse

/-- Absolute value of a decimal. -/
def DecNum.abs (d : DecNum) : DecNum := ⟨(d.m.natAbs : Int), d.s⟩

/-- Geolocation (open format, §9): a comma-separated latitude/longitude
decimal pair within range. -/
def isGeolocation (s : String) : Bool :=
  match splitOnChar ',' s.data with
  | [a, b] =>
    (match scanNum (trimSpaces a), scanNum (trimSpaces b) with
     | some (lat, []), some (lon, []) =>
       DecNum.ble lat.abs ⟨90, 0⟩ && DecNum.ble lon.abs ⟨180, 0⟩
     | _, _ => false)
  | _ => false

/-- Education (open format, §9): keyword detection. -/
def isEducation (s : String) : Bool :=
  keywordAny ["university", "college", "bachelor", "master", "phd", "degree"] s

/-- Financial (open format, §9): keyword detection. -/
def isFinancial (s : String) : Bool :=
  keywordAny ["iban", "account number", "routing number", "swift"] s

/-- Health (open format, §9): keyword detection. -/
def isHealth (s : String) : Bool :=
  keywordAny ["diagnosis", "patient", "prescription", "medical record"] s

/-- Category predicates aggregated by the any-PII matcher (§4.5). -/
def piiCategoryList : List (String → Bool) :=
  [isCreditCard, isSsn, isEmail, isPhone, isDriversLicense, isPassportId,
   isVin, isSerialNumber, isLogin, isTaxpayerId, isAddress, isSignature,
   isGeolocation, isEducation, isFinancial, isHealth]

/-! ## The numeric comparison engine (`matcher_numeric`) -/

namespace matcher_numeric

/-- Modelled from the spec: `matcher_numeric::common` (§4.3) — extract
the field as a number, parse the single required operand string under
the same normalization, apply the operator selected by `match_type`,
and subject the boolean to the outer `negate` flag.  Either side
failing to be numeric is a parse error.  `compareOp` selects the
ordering operator from the match type. -/
def compareOp (w : MatchTypeWire) (f op : DecNum) : Except CustomError Bool :=
  match w.enum_value with
  | .ok .MATCH_TYPE_NUMERIC_EQUAL_TO => .ok (DecNum.beq f op)
  | .ok .MATCH_TYPE_NUMERIC_GREATER_THAN => .ok (DecNum.blt op f)
  | .ok .MATCH_TYPE_NUMERIC_GREATER_EQUAL => .ok (DecNum.ble op f)
  | .ok .MATCH_TYPE_NUMERIC_LESS_THAN => .ok (DecNum.blt f op)
  | .ok .MATCH_TYPE_NUMERIC_LESS_EQUAL => .ok (DecNum.ble f op)
  | _ => .error (.Error "unexpected match type for numeric matcher")

/-- Modelled from the spec: the shared numeric matcher body (§4.3). -/
def common (r : MatchRequest) : Except CustomError Bool :=
  match parse_field DecNum r.data r.path with
  | .error e => .error e
  | .ok f =>
    match r.values with
    | [] => .error (.Error "numeric match requires exactly one operand")
    | opStr :: _ =>
      match scanNum opStr.data with
      | some (op, []) =>
        match compareOp r.type_ f op with
        | .error e => .error e
        | .ok b => .ok (applyNegate r.negate b)
      | _ => .error (.Error ("unable to parse operand as number: " ++ opStr))

end matcher_numeric

/-! ## Core validators (`matcher_core`)

All modelled from the spec (§4.4 table), in the shared
extract-then-rule shape. -/

namespace matcher_core

/-- Modelled from the spec: string-equal — field string equals the
single operand exactly. -/
def string_equal_to (r : MatchRequest) : Except CustomError Bool :=
  runFieldRule (fun req v =>
    match asString v with
    | .error e => .error e
    | .ok s =>
      match req.values with
      | [] => .error (.Error "string match requires exactly one operand")
      | op :: _ => .ok (s == op)) r

/-- Modelled from the spec: string-contains-any — field string contains
at least one operand substring. -/
def string_contains_any (r : MatchRequest) : Except CustomError Bool :=
  runFieldRule (fun req v =>
    match asString v with
    | .error e => .error e
    | .ok s => .ok (req.values.any (fun op => containsSub s op))) r

/-- Modelled from the spec: string-contains-all — field string contains
every operand substring. -/
def string_contains_all (r : MatchRequest) : Except CustomError Bool :=
  runFieldRule (fun req v =>
    match asString v with
    | .error e => .error e
    | .ok s => .ok (req.values.all (fun op => containsSub s op))) r

/-- Modelled from the spec: ipv4 / ipv6 — field string parses as a
valid address of the family selected by the match type. -/
def ip_address (r : MatchRequest) : Except CustomError Bool :=
  runFieldRule (fun req v =>
    match asString v with
    | .error e => .error e
    | .ok s =>
      match req.type_.enum_value with
      | .ok .MATCH_TYPE_IPV4_ADDRESS => .ok (isIpv4 s)
      | .ok .MATCH_TYPE_IPV6_ADDRESS => .ok (isIpv6 s)
      | _ => .error (.Error "unexpected match type for ip matcher")) r

/-- Modelled from the spec: regex — field string matches the operand
pattern under search semantics. -/
def regex (r : MatchRequest) : Except CustomError Bool :=
  runFieldRule (fun req v =>
    match asString v with
    | .error e => .error e
    | .ok s =>
      match req.values with
      | [] => .error (.Error "regex match requires exactly one operand")
      | pat :: _ => .ok (regexLite pat s)) r

/-- Modelled from the spec: timestamp-rfc3339 — field string parses as
a valid RFC3339 timestamp. -/
def timestamp_rfc3339 (r : MatchRequest) : Except CustomError Bool :=
  runFieldRule (fun _req v =>
    match asString v with
    | .error e => .error e
    | .ok s => .ok (isRfc3339 s)) r

/-- Shared rule of the two unix-timestamp validators: the field's
numeric or string value parses as a nonnegative integer epoch count. -/
def unixEpochRule (v : Json) : Except CustomError Bool :=
  match v with
  | .num d => .ok (d.s == 0 && decide (0 ≤ d.m))
  | .str s =>
    match scanNum s.data with
    | some (d, []) => .ok (d.s == 0 && decide (0 ≤ d.m))
    | _ => .ok false
  | _ => .error (.Error "field value is not a number or string")

/-- Modelled from the spec: timestamp-unix-nano — nanoseconds since the
epoch. -/
def timestamp_unix_nano (r : MatchRequest) : Except CustomError Bool :=
  runFieldRule (fun _req v => unixEpochRule v) r

/-- Modelled from the spec: timestamp-unix — seconds since the epoch. -/
def timestamp_unix (r : MatchRequest) : Except CustomError Bool :=
  runFieldRule (fun _req v => unixEpochRule v) r

/-- Modelled from the spec: boolean-true / boolean-false — field
resolves to exactly the expected boolean (type mismatch if not
boolean). -/
def boolean (r : MatchRequest) (expected : Bool) : Except CustomError Bool :=
  runFieldRule (fun _req v =>
    match asBool v with
    | .error e => .error e
    | .ok b => .ok (b == expected)) r

/-- Modelled from the spec: is-empty — an empty string, empty array,
empty object, null, or an absent field all count as empty (§4.4, §8);
absence is therefore a `false`/`true` outcome, not an error. -/
def is_empty (r : MatchRequest) : Except CustomError Bool :=
  match utf8Decode r.data with
  | none => .error (.Error utf8ErrorMsg)
  | some cs =>
    match ajsonGet cs r.path with
    | .error e => .error (.Error (fieldErrMsg e))
    | .ok res =>
      let b := match res with
        | none => true
        | some .null => true
        | some (.str s) => s.data.isEmpty
        | some (.arr l) => l.isEmpty
        | some (.obj l) => l.isEmpty
        | some _ => false
      .ok (applyNegate r.negate b)

/-- Modelled from the spec: has-field — true whenever the path resolves
(even to null) and false only when the path does not resolve (§4.4,
§8); not-found is a boolean outcome here, not an error. -/
def has_field (r : MatchRequest) : Except CustomError Bool :=
  match utf8Decode r.data with
  | none => .error (.Error utf8ErrorMsg)
  | some cs =>
    match ajsonGet cs r.path with
    | .error e => .error (.Error (fieldErrMsg e))
    | .ok res => .ok (applyNegate r.negate res.isSome)

/-- Modelled from the spec: is-type — the field's runtime tag matches
the operand-declared type name. -/
def is_type (r : MatchRequest) : Except CustomError Bool :=
  runFieldRule (fun req v =>
    match req.values with
    | [] => .error (.Error "is-type match requires exactly one operand")
    | op :: _ => .ok (typeTag v == op)) r

/-- Modelled from the spec: uuid — canonical UUID textual form. -/
def uuid (r : MatchRequest) : Except CustomError Bool :=
  runFieldRule (fun _req v =>
    match asString v with
    | .error e => .error e
    | .ok s => .ok (isUuid s)) r

/-- Modelled from the spec: mac-address — standard MAC textual form. -/
def mac_address (r : MatchRequest) : Except CustomError Bool :=
  runFieldRule (fun _req v =>
    match asString v with
    | .error e => .error e
    | .ok s => .ok (isMac s)) r

end matcher_core

/-! ## PII validators (`matcher_pii`)

All modelled from the spec (§4.5), in the shared extract-then-rule
shape over the string form of the field. -/

namespace matcher_pii

/-- Lift a string predicate into the shared validator shape. -/
def ofPred (p : String → Bool) (r : MatchRequest) : Except CustomError Bool :=
  runFieldRule (fun _req v =>
    match asString v with
    | .error e => .error e
    | .ok s => .ok (p s)) r

/-- Modelled from the spec: any-PII aggregate — true iff at least one
category validator matches, short-circuiting on the first match. -/
def all (r : MatchRequest) : Except CustomError Bool :=
  ofPred (fun s => piiCategoryList.any (fun p => p s)) r

/-- Modelled from the spec: credit-card detection (Luhn). -/
def credit_card (r : MatchRequest) : Except CustomError Bool := ofPred isCreditCard r

/-- Modelled from the spec: SSN detection. -/
def ssn (r : MatchRequest) : Except CustomError Bool := ofPred isSsn r

/-- Modelled from the spec: email detection. -/
def email (r : MatchRequest) : Except CustomError Bool := ofPred isEmail r

/-- Modelled from the spec: phone detection. -/
def phone (r : MatchRequest) : Except CustomError Bool := ofPred isPhone r

/-- Modelled from the spec: driver's-license detection. -/
def drivers_license (r : MatchRequest) : Except CustomError Bool := ofPred isDriversLicense r

/-- Modelled from the spec: passport-ID detection. -/
def passport_id (r : MatchRequest) : Except CustomError Bool := ofPred isPassportId r

/-- Modelled from the spec: VIN detection (check digit). -/
def vin_number (r : MatchRequest) : Except CustomError Bool := ofPred isVin r

/-- Modelled from the spec: serial-number detection. -/
def serial_number (r : MatchRequest) : Except CustomError Bool := ofPred isSerialNumber r

/-- Modelled from the spec: login detection. -/
def login (r : MatchRequest) : Except CustomError Bool := ofPred isLogin r

/-- Modelled from the spec: taxpayer-ID detection. -/
def taxpayer_id (r : MatchRequest) : Except CustomError Bool := ofPred isTaxpayerId r

/-- Modelled from the spec: street-address detection. -/
def address (r : MatchRequest) : Except CustomError Bool := ofPred isAddress r

/-- Modelled from the spec: signature detection. -/
def signature (r : MatchRequest) : Except CustomError Bool := ofPred isSignature r

/-- Modelled from the spec: geolocation detection. -/
def geolocation (r : MatchRequest) : Except CustomError Bool := ofPred isGeolocation r

/-- Modelled from the spec: education detection. -/
def education (r : MatchRequest) : Except CustomError Bool := ofPred isEducation r

/-- Modelled from the spec: financial detection. -/
def financial (r : MatchRequest) : Except CustomError Bool := ofPred isFinancial r

/-- Modelled from the spec: health detection. -/
def health (r : MatchRequest) : Except CustomError Bool := ofPred isHealth r

end matcher_pii

/-! ## The dispatcher (`Detective`, src/detective.rs:9-82) -/

/-- The stateless `Detective` facade (`pub struct Detective {}`). -/
structure Detective

/-- Translation of `Detective::new`. -/
def Detective.new : Detective := ⟨⟩

/-- Translation of the `Default` impl, which calls `Detective::new`. -/
instance : Inhabited Detective := ⟨Detective.new⟩

/-- Translation of the `match` block of `Detective::matches`
(src/detective.rs:28-80): total mapping from the decoded match type to
the one validator handling it; the unknown sentinel yields the generic
match-type error. -/
def Detective.dispatch (t : MatchType) (r : MatchRequest) : Except CustomError Bool :=
  match t with
  | .MATCH_TYPE_NUMERIC_EQUAL_TO
  | .MATCH_TYPE_NUMERIC_GREATER_EQUAL
  | .MATCH_TYPE_NUMERIC_GREATER_THAN
  | .MATCH_TYPE_NUMERIC_LESS_EQUAL
  | .MATCH_TYPE_NUMERIC_LESS_THAN => matcher_numeric.common r
  | .MATCH_TYPE_STRING_EQUAL => matcher_core.string_equal_to r
  | .MATCH_TYPE_STRING_CONTAINS_ANY => matcher_core.string_contains_any r
  | .MATCH_TYPE_STRING_CONTAINS_ALL => matcher_core.string_contains_all r
  | .MATCH_TYPE_IPV4_ADDRESS
  | .MATCH_TYPE_IPV6_ADDRESS => matcher_core.ip_address r
  | .MATCH_TYPE_REGEX => matcher_core.regex r
  | .MATCH_TYPE_TIMESTAMP_RFC3339 => matcher_core.timestamp_rfc3339 r
  | .MATCH_TYPE_TIMESTAMP_UNIX_NANO => matcher_core.timestamp_unix_nano r
  | .MATCH_TYPE_TIMESTAMP_UNIX => matcher_core.timestamp_unix r
  | .MATCH_TYPE_BOOLEAN_FALSE => matcher_core.boolean r false
  | .MATCH_TYPE_BOOLEAN_TRUE => matcher_core.boolean r true
  | .MATCH_TYPE_IS_EMPTY => matcher_core.is_empty r
  | .MATCH_TYPE_HAS_FIELD => matcher_core.has_field r
  | .MATCH_TYPE_IS_TYPE => matcher_core.is_type r
  | .MATCH_TYPE_UUID => matcher_core.uuid r
  | .MATCH_TYPE_MAC_ADDRESS => matcher_core.mac_address r
  | .MATCH_TYPE_PII_ANY => matcher_pii.all r
  | .MATCH_TYPE_PII_CREDIT_CARD => matcher_pii.credit_card r
  | .MATCH_TYPE_PII_SSN => matcher_pii.ssn r
  | .MATCH_TYPE_PII_EMAIL => matcher_pii.email r
  | .MATCH_TYPE_PII_PHONE => matcher_pii.phone r
  | .MATCH_TYPE_PII_DRIVER_LICENSE => matcher_pii.drivers_license r
  | .MATCH_TYPE_PII_PASSPORT_ID => matcher_pii.passport_id r
  | .MATCH_TYPE_PII_VIN_NUMBER => matcher_pii.vin_number r
  | .MATCH_TYPE_PII_SERIAL_NUMBER => matcher_pii.serial_number r
  | .MATCH_TYPE_PII_LOGIN => matcher_pii.login r
  | .MATCH_TYPE_PII_TAXPAYER_ID => matcher_pii.taxpayer_id r
  | .MATCH_TYPE_PII_ADDRESS => matcher_pii.address r
  | .MATCH_TYPE_PII_SIGNATURE => matcher_pii.signature r
  | .MATCH_TYPE_PII_GEOLOCATION => matcher_pii.geolocation r
  | .MATCH_TYPE_PII_EDUCATION => matcher_pii.education r
  | .MATCH_TYPE_PII_FINANCIAL => matcher_pii.financial r
  | .MATCH_TYPE_PII_HEALTH => matcher_pii.health r
  | .MATCH_TYPE_UNKNOWN => .error (.Error "match type cannot be unknown")

/-- Translation of `Detective::matches` (src/detective.rs:24-81):
validate the request, re-decode the match type (mapping a decode
failure to `MissingMatchType`), then dispatch. -/
def Detective.matches (d : Detective) (r : MatchRequest) : Except CustomError Bool :=
  match validate_match_request r with
  | .error e => .error e
  | .ok _ =>
    match r.type_.enum_value with
    | .error n => .error (.MissingMatchType n)
    | .ok t => Detective.dispatch t r

/-! ## Concrete fixtures for the scenario claims -/

/-- Example document of the numeric scenarios. -/
def exampleDoc : String := "\x7b\"number_int\": 100\x7d"

/-- Build a request against the example document (the shape of the
tests' `generate_request`). -/
def exampleRequest (t : MatchType) (path : String) (vals : List String)
    (neg : Bool) : MatchRequest :=
  { type_ := .known t, path := path, data := utf8Encode exampleDoc,
    values := vals, negate := neg }

/-- Example document with an explicit null member. -/
def nullDoc : String := "\x7b\"a\": null\x7d"

/-! ## Claims -/

/-- C9: `Detective::matches` is deterministic and side-effect-free —
in this pure embedding a call is a function of the request alone, so
two invocations on the same request agree even across distinct
`Detective` values. -/
theorem c9_matches_stateless (d₁ d₂ : Detective) (r : MatchRequest) :
    Detective.matches d₁ r = Detective.matches d₂ r := rfl

/-- C2: `validate_match_request` succeeds exactly when the match type
decodes to a known non-unknown variant, the path is non-empty and the
data is non-empty; and its result depends on no other field of the
request. -/
theorem c2_validate_characterization (r : MatchRequest) :
    (validate_match_request r = .ok () ↔
      (∃ t, r.type_.enum_value = .ok t ∧ t ≠ MatchType.MATCH_TYPE_UNKNOWN) ∧
        r.path ≠ "" ∧ r.data ≠ []) ∧
    (∀ r' : MatchRequest, r.type_ = r'.type_ → r.path = r'.path →
      r.data = r'.data →
      validate_match_request r = validate_match_request r') := by
  constructor
  · cases h : r.type_ with
    | known t =>
      simp only [validate_match_request, h, MatchTypeWire.enum_value, Except.ok.injEq]
      constructor
      · intro hok
        by_cases hu : t = MatchType.MATCH_TYPE_UNKNOWN
        · rw [if_pos hu] at hok; exact absurd hok (by simp)
        · rw [if_neg hu] at hok
          by_cases hp : r.path.isEmpty = true
          · rw [if_pos hp] at hok; exact absurd hok (by simp)
          · rw [if_neg hp] at hok
            by_cases hd : r.data.isEmpty = true
            · rw [if_pos hd] at hok; exact absurd hok (by simp)
            · refine ⟨⟨t, rfl, hu⟩, ?_, ?_⟩
              · exact fun hh => hp ((String.isEmpty_iff r.path).mpr hh)
              · exact fun hh => hd (List.isEmpty_iff.mpr hh)
      · rintro ⟨⟨t', ht', hu'⟩, hp, hd⟩
        cases ht'
        rw [if_neg hu', if_neg (fun hh => hp ((String.isEmpty_iff r.path).mp hh)),
          if_neg (fun hh => hd (List.isEmpty_iff.mp hh))]
    | unknownValue n =>
      simp only [validate_match_request, h, MatchTypeWire.enum_value]
      constructor
      · intro hok; exact absurd hok (by simp)
      · rintro ⟨⟨t', ht', _⟩, _, _⟩; exact absurd ht' (by simp)
  · intro r' h1 h2 h3
    simp only [validate_match_request, h1, h2, h3]

/-- Witness for C2 at a concrete request: a known non-unknown type with
non-empty path and data validates, by the characterization. -/
theorem c2_validate_characterization_witness :
    validate_match_request
      (exampleRequest .MATCH_TYPE_STRING_EQUAL "number_int" ["x"] false) = .ok () :=
  (c2_validate_characterization _).1.mpr
    ⟨⟨.MATCH_TYPE_STRING_EQUAL, rfl, by decide⟩, by decide, by decide⟩

/-- C6: on data that is not valid UTF-8, both accessors fail with the
decode error, and the result does not depend on the path (no path
resolution is attempted). -/
theorem c6_invalid_utf8 (α : Type) [FromValue α] (data : List Nat)
    (path path' : String) (h : utf8Decode data = none) :
    parse_field α data path = .error (.Error utf8ErrorMsg) ∧
    parse_field_value data path = .error (.Error utf8ErrorMsg) ∧
    parse_field_value data path = parse_field_value data path' := by
  simp [parse_field, parse_field_value, h]

/-- Witness for C6 at the concrete invalid byte 0xFF. -/
theorem c6_invalid_utf8_witness :
    parse_field Bool [255] "x" = .error (.Error utf8ErrorMsg) :=
  (c6_invalid_utf8 Bool [255] "x" "y" rfl).1

/-- C10: the typed accessor refines the raw one — whenever
`parse_field_value` fails, `parse_field` fails with the identical
error, and whenever it succeeds, `parse_field` is exactly
`from_value` of the returned raw value (so its only additional failure
is the coercion's). -/
theorem c10_parse_field_refines (α : Type) [FromValue α] (data : List Nat)
    (path : String) :
    (∀ e, parse_field_value data path = .error e →
      parse_field α data path = .error e) ∧
    (∀ v, parse_field_value data path = .ok v →
      parse_field α data path = FromValue.from_value v) := by
  cases hu : utf8Decode data with
  | none =>
    constructor
    · intro e he
      simp [parse_field_value, hu] at he
      simp [parse_field, hu, ← he]
    · intro v hv
      simp [parse_field_value, hu] at hv
  | some cs =>
    cases hg : ajsonGet cs path with
    | error e' =>
      constructor
      · intro e he
        simp [parse_field_value, hu, hg] at he
        simp [parse_field, hu, hg, ← he]
      · intro v hv
        simp [parse_field_value, hu, hg] at hv
    | ok res =>
      cases res with
      | none =>
        constructor
        · intro e he
          simp [parse_field_value, hu, hg] at he
          simp [parse_field, hu, hg, ← he]
        · intro v hv
          simp [parse_field_value, hu, hg] at hv
      | some v' =>
        constructor
        · intro e he
          simp [parse_field_value, hu, hg] at he
        · intro v hv
          simp [parse_field_value, hu, hg] at hv
          simp [parse_field, hu, hg, hv]

/-- Witness for C10: at a path absent from the example document, the
typed accessor reports the raw accessor's not-found error. -/
theorem c10_parse_field_refines_witness :
    parse_field Bool (utf8Encode exampleDoc) "does_not_exist" =
      .error (.Error (pathNotFoundMsg "does_not_exist")) :=
  (c10_parse_field_refines Bool (utf8Encode exampleDoc) "does_not_exist").1 _ rfl

/-- Helper: a message starting "unexpected match type: " never equals
the fixed unknown-match-type message, whatever the raw value printed
after the prefix. -/
theorem unexpected_msg_ne (s : String) :
    ("unexpected match type: " ++ s : String) ≠
      "unknown match type: MATCH_TYPE_UNKNOWN" := by
  intro h
  have h2 : ("unexpected match type: " ++ s).data =
      ("unknown match type: MATCH_TYPE_UNKNOWN" : String).data :=
    congrArg String.data h
  rw [String.data_append] at h2
  have h3 : (("unexpected match type: " : String).data ++ s.data).take 3 =
      (("unknown match type: MATCH_TYPE_UNKNOWN" : String).data).take 3 := by
    rw [h2]
  rw [List.take_append_of_le_length (by decide)] at h3
  exact absurd h3 (by decide)

/-- C8: each rejection of `validate_match_request` surfaces its own
classified error — an undecodable match type yields the
"unexpected match type" match error (the taxonomy's MissingMatchType),
the unknown sentinel yields the "unknown match type" match error
(InvalidMatchType), and an empty path or empty data yields the
respective request error (InvalidRequest) — and the four error values
are pairwise distinct, so the caller can tell the kinds apart. -/
theorem c8_validate_error_taxonomy (r : MatchRequest) :
    (∀ n, r.type_ = .unknownValue n →
      validate_match_request r =
        .error (.MatchError ("unexpected match type: " ++ toString n))) ∧
    (r.type_ = .known .MATCH_TYPE_UNKNOWN →
      validate_match_request r =
        .error (.MatchError "unknown match type: MATCH_TYPE_UNKNOWN")) ∧
    (∀ t, r.type_ = .known t → t ≠ .MATCH_TYPE_UNKNOWN → r.path = "" →
      validate_match_request r = .error (.Error "path cannot be empty")) ∧
    (∀ t, r.type_ = .known t → t ≠ .MATCH_TYPE_UNKNOWN → r.path ≠ "" →
      r.data = [] →
      validate_match_request r = .error (.Error "data cannot be empty")) ∧
    (∀ n : Int, CustomError.MatchError ("unexpected match type: " ++ toString n) ≠
      .MatchError "unknown match type: MATCH_TYPE_UNKNOWN") ∧
    (∀ (n : Int) (m : String),
      CustomError.MatchError ("unexpected match type: " ++ toString n) ≠
      .Error m) ∧
    (∀ m, CustomError.MatchError "unknown match type: MATCH_TYPE_UNKNOWN" ≠
      .Error m) ∧
    (CustomError.Error "path cannot be empty" ≠
      .Error "data cannot be empty") := by
  refine ⟨?_, ?_, ?_, ?_, ?_, ?_, ?_, by decide⟩
  · intro n h
    simp only [validate_match_request, h, MatchTypeWire.enum_value]
  · intro h
    simp only [validate_match_request, h, MatchTypeWire.enum_value]
    rw [if_pos trivial]
    rfl
  · intro t h hu hp
    simp only [validate_match_request, h, MatchTypeWire.enum_value]
    rw [if_neg hu, if_pos ((String.isEmpty_iff r.path).mpr hp)]
  · intro t h hu hp hd
    simp only [validate_match_request, h, MatchTypeWire.enum_value]
    rw [if_neg hu, if_neg (fun hh => hp ((String.isEmpty_iff r.path).mp hh)),
      if_pos (List.isEmpty_iff.mpr hd)]
  · intro n h
    exact unexpected_msg_ne (toString n) (CustomError.MatchError.inj h)
  · intro n m h; cases h
  · intro m h; cases h

/-- Witness for C8 at a concrete undecodable wire value. -/
theorem c8_validate_error_taxonomy_witness :
    validate_match_request
      { type_ := .unknownValue 99, path := "p", data := [49], values := [],
        negate := false } =
      .error (.MatchError ("unexpected match type: " ++ toString (99 : Int))) :=
  (c8_validate_error_taxonomy _).1 99 rfl

/-- C3: the concrete numeric scenarios against the document with
`number_int` = 100 — greater-than 1 is true, greater-than 1000 is
false, and an equal-to request with a non-numeric operand is the
operand-parse error, not a boolean. -/
theorem c3_numeric_scenarios :
    Detective.matches Detective.new
      (exampleRequest .MATCH_TYPE_NUMERIC_GREATER_THAN "number_int" ["1"] false) =
      .ok true ∧
    Detective.matches Detective.new
      (exampleRequest .MATCH_TYPE_NUMERIC_GREATER_THAN "number_int" ["1000"] false) =
      .ok false ∧
    Detective.matches Detective.new
      (exampleRequest .MATCH_TYPE_NUMERIC_EQUAL_TO "number_int" ["not a number"] false) =
      .error (.Error "unable to parse operand as number: not a number") :=
  ⟨rfl, rfl, rfl⟩

/-- C1: for a request passing validation with a decoded match type,
`Detective::matches` equals the dispatch table at that type, the
dispatch table at the unknown sentinel is the generic match-type error,
and at each known variant `matches` returns the result of exactly the
one validator selected by the match type, unmodified. -/
theorem c1_matches_dispatch (d : Detective) (r : MatchRequest) (t : MatchType)
    (ht : r.type_.enum_value = .ok t)
    (hv : validate_match_request r = .ok ()) :
    Detective.matches d r = Detective.dispatch t r ∧
    Detective.dispatch .MATCH_TYPE_UNKNOWN r =
      .error (.Error "match type cannot be unknown") ∧
    (t = .MATCH_TYPE_NUMERIC_EQUAL_TO → Detective.matches d r = matcher_numeric.common r) ∧
    (t = .MATCH_TYPE_NUMERIC_GREATER_EQUAL → Detective.matches d r = matcher_numeric.common r) ∧
    (t = .MATCH_TYPE_NUMERIC_GREATER_THAN → Detective.matches d r = matcher_numeric.common r) ∧
    (t = .MATCH_TYPE_NUMERIC_LESS_EQUAL → Detective.matches d r = matcher_numeric.common r) ∧
    (t = .MATCH_TYPE_NUMERIC_LESS_THAN → Detective.matches d r = matcher_numeric.common r) ∧
    (t = .MATCH_TYPE_STRING_EQUAL → Detective.matches d r = matcher_core.string_equal_to r) ∧
    (t = .MATCH_TYPE_STRING_CONTAINS_ANY → Detective.matches d r = matcher_core.string_contains_any r) ∧
    (t = .MATCH_TYPE_STRING_CONTAINS_ALL → Detective.matches d r = matcher_core.string_contains_all r) ∧
    (t = .MATCH_TYPE_IPV4_ADDRESS → Detective.matches d r = matcher_core.ip_address r) ∧
    (t = .MATCH_TYPE_IPV6_ADDRESS → Detective.matches d r = matcher_core.ip_address r) ∧
    (t = .MATCH_TYPE_REGEX → Detective.matches d r = matcher_core.regex r) ∧
    (t = .MATCH_TYPE_TIMESTAMP_RFC3339 → Detective.matches d r = matcher_core.timestamp_rfc3339 r) ∧
    (t = .MATCH_TYPE_TIMESTAMP_UNIX_NANO → Detective.matches d r = matcher_core.timestamp_unix_nano r) ∧
    (t = .MATCH_TYPE_TIMESTAMP_UNIX → Detective.matches d r = matcher_core.timestamp_unix r) ∧
    (t = .MATCH_TYPE_BOOLEAN_FALSE → Detective.matches d r = matcher_core.boolean r false) ∧
    (t = .MATCH_TYPE_BOOLEAN_TRUE → Detective.matches d r = matcher_core.boolean r true) ∧
    (t = .MATCH_TYPE_IS_EMPTY → Detective.matches d r = matcher_core.is_empty r) ∧
    (t = .MATCH_TYPE_HAS_FIELD → Detective.matches d r = matcher_core.has_field r) ∧
    (t = .MATCH_TYPE_IS_TYPE → Detective.matches d r = matcher_core.is_type r) ∧
    (t = .MATCH_TYPE_UUID → Detective.matches d r = matcher_core.uuid r) ∧
    (t = .MATCH_TYPE_MAC_ADDRESS → Detective.matches d r = matcher_core.mac_address r) ∧
    (t = .MATCH_TYPE_PII_ANY → Detective.matches d r = matcher_pii.all r) ∧
    (t = .MATCH_TYPE_PII_CREDIT_CARD → Detective.matches d r = matcher_pii.credit_card r) ∧
    (t = .MATCH_TYPE_PII_SSN → Detective.matches d r = matcher_pii.ssn r) ∧
    (t = .MATCH_TYPE_PII_EMAIL → Detective.matches d r = matcher_pii.email r) ∧
    (t = .MATCH_TYPE_PII_PHONE → Detective.matches d r = matcher_pii.phone r) ∧
    (t = .MATCH_TYPE_PII_DRIVER_LICENSE → Detective.matches d r = matcher_pii.drivers_license r) ∧
    (t = .MATCH_TYPE_PII_PASSPORT_ID → Detective.matches d r = matcher_pii.passport_id r) ∧
    (t = .MATCH_TYPE_PII_VIN_NUMBER → Detective.matches d r = matcher_pii.vin_number r) ∧
    (t = .MATCH_TYPE_PII_SERIAL_NUMBER → Detective.matches d r = matcher_pii.serial_number r) ∧
    (t = .MATCH_TYPE_PII_LOGIN → Detective.matches d r = matcher_pii.login r) ∧
    (t = .MATCH_TYPE_PII_TAXPAYER_ID → Detective.matches d r = matcher_pii.taxpayer_id r) ∧
    (t = .MATCH_TYPE_PII_ADDRESS → Detective.matches d r = matcher_pii.address r) ∧
    (t = .MATCH_TYPE_PII_SIGNATURE → Detective.matches d r = matcher_pii.signature r) ∧
    (t = .MATCH_TYPE_PII_GEOLOCATION → Detective.matches d r = matcher_pii.geolocation r) ∧
    (t = .MATCH_TYPE_PII_EDUCATION → Detective.matches d r = matcher_pii.education r) ∧
    (t = .MATCH_TYPE_PII_FINANCIAL → Detective.matches d r = matcher_pii.financial r) ∧
    (t = .MATCH_TYPE_PII_HEALTH → Detective.matches d r = matcher_pii.health r) := by
  have hm : Detective.matches d r = Detective.dispatch t r := by
    simp only [Detective.matches, hv, ht]
  refine ⟨hm, rfl,
    fun h => by subst h; exact hm,
    fun h => by subst h; exact hm,
    fun h => by subst h; exact hm,
    fun h => by subst h; exact hm,
    fun h => by subst h; exact hm,
    fun h => by subst h; exact hm,
    fun h => by subst h; exact hm,
    fun h => by subst h; exact hm,
    fun h => by subst h; exact hm,
    fun h => by subst h; exact hm,
    fun h => by subst h; exact hm,
    fun h => by subst h; exact hm,
    fun h => by subst h; exact hm,
    fun h => by subst h; exact hm,
    fun h => by subst h; exact hm,
    fun h => by subst h; exact hm,
    fun h => by subst h; exact hm,
    fun h => by subst h; exact hm,
    fun h => by subst h; exact hm,
    fun h => by subst h; exact hm,
    fun h => by subst h; exact hm,
    fun h => by subst h; exact hm,
    fun h => by subst h; exact hm,
    fun h => by subst h; exact hm,
    fun h => by subst h; exact hm,
    fun h => by subst h; exact hm,
    fun h => by subst h; exact hm,
    fun h => by subst h; exact hm,
    fun h => by subst h; exact hm,
    fun h => by subst h; exact hm,
    fun h => by subst h; exact hm,
    fun h => by subst h; exact hm,
    fun h => by subst h; exact hm,
    fun h => by subst h; exact hm,
    fun h => by subst h; exact hm,
    fun h => by subst h; exact hm,
    fun h => by subst h; exact hm,
    fun h => by subst h; exact hm⟩

/-- Witness for C1 at a concrete validated request. -/
theorem c1_matches_dispatch_witness :
    Detective.matches Detective.new
      (exampleRequest .MATCH_TYPE_STRING_EQUAL "number_int" ["100"] false) =
      Detective.dispatch .MATCH_TYPE_STRING_EQUAL
        (exampleRequest .MATCH_TYPE_STRING_EQUAL "number_int" ["100"] false) :=
  (c1_matches_dispatch Detective.new
    (exampleRequest .MATCH_TYPE_STRING_EQUAL "number_int" ["100"] false)
    .MATCH_TYPE_STRING_EQUAL rfl rfl).1

/-- C4 counterexample: on the has-field match type, a path that the
extraction layer itself reports as not-found produces the boolean
`false` from `matches`, not a path-not-found error (negate is false). -/
theorem c4_has_field_counterexample :
    parse_field_value (utf8Encode exampleDoc) "does_not_exist" =
      .error (.Error (pathNotFoundMsg "does_not_exist")) ∧
    Detective.matches Detective.new
      (exampleRequest .MATCH_TYPE_HAS_FIELD "does_not_exist" [] false) =
      .ok false :=
  ⟨rfl, rfl⟩

/-- C4 (amended): for every match type other than has-field and
is-empty, a validated request whose path resolves to no node yields the
path-not-found error, never a boolean, regardless of negate. -/
theorem c4_amended_path_not_found (d : Detective) (r : MatchRequest)
    (t : MatchType) (cs : List Char)
    (ht : r.type_.enum_value = .ok t)
    (hv : validate_match_request r = .ok ())
    (hdec : utf8Decode r.data = some cs)
    (hnone : ajsonGet cs r.path = .ok none)
    (hhf : t ≠ .MATCH_TYPE_HAS_FIELD)
    (hie : t ≠ .MATCH_TYPE_IS_EMPTY) :
    Detective.matches d r = .error (.Error (pathNotFoundMsg r.path)) := by
  have hm : Detective.matches d r = Detective.dispatch t r := by
    simp only [Detective.matches, hv, ht]
  have hunk : t ≠ .MATCH_TYPE_UNKNOWN := by
    intro h
    rw [h] at ht
    simp [validate_match_request, ht] at hv
  have hpfv : parse_field_value r.data r.path =
      .error (.Error (pathNotFoundMsg r.path)) := by
    simp [parse_field_value, hdec, hnone]
  have hpfd : parse_field DecNum r.data r.path =
      .error (.Error (pathNotFoundMsg r.path)) := by
    simp [parse_field, hdec, hnone]
  rw [hm]
  cases t <;>
    first
      | exact absurd rfl hunk
      | exact absurd rfl hhf
      | exact absurd rfl hie
      | simp [Detective.dispatch, matcher_numeric.common, hpfd, hpfv, runFieldRule,
          matcher_core.string_equal_to, matcher_core.string_contains_any,
          matcher_core.string_contains_all, matcher_core.ip_address,
          matcher_core.regex, matcher_core.timestamp_rfc3339,
          matcher_core.timestamp_unix_nano, matcher_core.timestamp_unix,
          matcher_core.boolean, matcher_core.is_type, matcher_core.uuid,
          matcher_core.mac_address, matcher_pii.ofPred, matcher_pii.all,
          matcher_pii.credit_card, matcher_pii.ssn, matcher_pii.email,
          matcher_pii.phone, matcher_pii.drivers_license,
          matcher_pii.passport_id, matcher_pii.vin_number,
          matcher_pii.serial_number, matcher_pii.login,
          matcher_pii.taxpayer_id, matcher_pii.address,
          matcher_pii.signature, matcher_pii.geolocation,
          matcher_pii.education, matcher_pii.financial, matcher_pii.health]

/-- Witness for the amended C4 at a concrete numeric request whose path
is absent from the document. -/
theorem c4_amended_path_not_found_witness :
    Detective.matches Detective.new
      (exampleRequest .MATCH_TYPE_NUMERIC_EQUAL_TO "does_not_exist" ["1000"] false) =
      .error (.Error (pathNotFoundMsg "does_not_exist")) :=
  c4_amended_path_not_found Detective.new
    (exampleRequest .MATCH_TYPE_NUMERIC_EQUAL_TO "does_not_exist" ["1000"] false)
    .MATCH_TYPE_NUMERIC_EQUAL_TO exampleDoc.data rfl rfl rfl rfl
    (by decide) (by decide)

/-- C7: under a well-formed path and UTF-8 data, the raw extractor
fails with the path-not-found error exactly when the path resolves to
no node of the parsed document, and a path resolving to an explicit
null yields the null value. -/
theorem c7_not_found_iff (data : List Nat) (path : String) (cs : List Char)
    (segs : List String)
    (h1 : utf8Decode data = some cs) (h2 : splitPath path = some segs) :
    (parse_field_value data path = .error (.Error (pathNotFoundMsg path)) ↔
      (parseJsonText cs).bind (resolvePath segs) = none) ∧
    (∀ doc, parseJsonText cs = some doc → resolvePath segs doc = some .null →
      parse_field_value data path = .ok .null) := by
  have hag : ajsonGet cs path = .ok ((parseJsonText cs).bind (resolvePath segs)) := by
    simp only [ajsonGet, h2]
    cases parseJsonText cs <;> rfl
  constructor
  · cases hres : (parseJsonText cs).bind (resolvePath segs) with
    | none => simp [parse_field_value, h1, hag, hres]
    | some v => simp [parse_field_value, h1, hag, hres]
  · intro doc hdoc hnull
    simp [parse_field_value, h1, hag, hdoc, hnull]

/-- Witness for C7: in the document with an explicit null member, the
path to it extracts the null value rather than a not-found error. -/
theorem c7_not_found_iff_witness :
    parse_field_value (utf8Encode nullDoc) "a" = .ok .null :=
  (c7_not_found_iff (utf8Encode nullDoc) "a" nullDoc.data ["a"] rfl rfl).2
    (.obj [("a", .null)]) rfl rfl

/-- Helper: a validator in the shared extract-then-rule shape inverts
its boolean under negate and leaves errors unchanged, provided its rule
ignores the negate flag. -/
theorem runFieldRule_flip (rule : MatchRequest → Json → Except CustomError Bool)
    (ty : MatchTypeWire) (path : String) (dat : List Nat) (vals : List String)
    (hrule : ∀ v, rule ⟨ty, path, dat, vals, true⟩ v =
      rule ⟨ty, path, dat, vals, false⟩ v) :
    runFieldRule rule ⟨ty, path, dat, vals, true⟩ =
      Except.map Bool.not (runFieldRule rule ⟨ty, path, dat, vals, false⟩) := by
  simp only [runFieldRule]
  cases hp : parse_field_value dat path with
  | error e => simp [hp, Except.map]
  | ok v =>
    cases hr : rule ⟨ty, path, dat, vals, false⟩ v with
    | error e => simp [hp, hrule, hr, Except.map]
    | ok b => simp [hp, hrule, hr, Except.map, applyNegate]

/-- Helper: the numeric matcher inverts its boolean under negate and
leaves errors unchanged. -/
theorem numeric_common_flip (ty : MatchTypeWire) (path : String)
    (dat : List Nat) (vals : List String) :
    matcher_numeric.common ⟨ty, path, dat, vals, true⟩ =
      Except.map Bool.not (matcher_numeric.common ⟨ty, path, dat, vals, false⟩) := by
  simp only [matcher_numeric.common]
  cases hp : parse_field DecNum dat path with
  | error e => simp [hp, Except.map]
  | ok f =>
    cases vals with
    | nil => simp [hp, Except.map]
    | cons op rest =>
      cases hs : scanNum op.data with
      | none => simp [hp, hs, Except.map]
      | some pr =>
        obtain ⟨opd, rem⟩ := pr
        cases rem with
        | cons c cs => simp [hp, hs, Except.map]
        | nil =>
          cases hc : matcher_numeric.compareOp ty f opd with
          | error e => simp [hp, hs, hc, Except.map]
          | ok b => simp [hp, hs, hc, Except.map, applyNegate]

/-- Helper: has-field inverts its boolean under negate and leaves
errors unchanged. -/
theorem has_field_flip (ty : MatchTypeWire) (path : String) (dat : List Nat)
    (vals : List String) :
    matcher_core.has_field ⟨ty, path, dat, vals, true⟩ =
      Except.map Bool.not (matcher_core.has_field ⟨ty, path, dat, vals, false⟩) := by
  simp only [matcher_core.has_field]
  cases hu : utf8Decode dat with
  | none => simp [hu, Except.map]
  | some cs =>
    cases hg : ajsonGet cs path with
    | error e => simp [hu, hg, Except.map]
    | ok res => simp [hu, hg, Except.map, applyNegate]

/-- Helper: is-empty inverts its boolean under negate and leaves errors
unchanged. -/
theorem is_empty_flip (ty : MatchTypeWire) (path : String) (dat : List Nat)
    (vals : List String) :
    matcher_core.is_empty ⟨ty, path, dat, vals, true⟩ =
      Except.map Bool.not (matcher_core.is_empty ⟨ty, path, dat, vals, false⟩) := by
  simp only [matcher_core.is_empty]
  cases hu : utf8Decode dat with
  | none => simp [hu, Except.map]
  | some cs =>
    cases hg : ajsonGet cs path with
    | error e => simp [hu, hg, Except.map]
    | ok res => simp [hu, hg, Except.map, applyNegate]

/-- C5: on any request, flipping negate to true inverts the boolean
outcome of the negate-false request and leaves an error outcome
identical — negation never turns an error into a boolean or a boolean
into an error. -/
theorem c5_negate_flip (d : Detective) (r : MatchRequest) :
    Detective.matches d { r with negate := true } =
      Except.map Bool.not (Detective.matches d { r with negate := false }) := by
  obtain ⟨ty, path, dat, vals, neg⟩ := r
  show Detective.matches d ⟨ty, path, dat, vals, true⟩ =
    Except.map Bool.not (Detective.matches d ⟨ty, path, dat, vals, false⟩)
  simp only [Detective.matches]
  have hval : validate_match_request ⟨ty, path, dat, vals, true⟩ =
      validate_match_request ⟨ty, path, dat, vals, false⟩ := rfl
  rw [hval]
  cases hv : validate_match_request ⟨ty, path, dat, vals, false⟩ with
  | error e => rfl
  | ok u =>
    cases hty : MatchTypeWire.enum_value ty with
    | error n => rfl
    | ok t =>
      show Detective.dispatch t ⟨ty, path, dat, vals, true⟩ =
        Except.map Bool.not (Detective.dispatch t ⟨ty, path, dat, vals, false⟩)
      cases t <;>
        first
          | rfl
          | exact numeric_common_flip ty path dat vals
          | exact has_field_flip ty path dat vals
          | exact is_empty_flip ty path dat vals
          | (simp only [Detective.dispatch, matcher_core.string_equal_to,
              matcher_core.string_contains_any, matcher_core.string_contains_all,
              matcher_core.ip_address, matcher_core.regex,
              matcher_core.timestamp_rfc3339, matcher_core.timestamp_unix_nano,
              matcher_core.timestamp_unix, matcher_core.boolean,
              matcher_core.is_type, matcher_core.uuid, matcher_core.mac_address,
              matcher_pii.ofPred, matcher_pii.all, matcher_pii.credit_card,
              matcher_pii.ssn, matcher_pii.email, matcher_pii.phone,
              matcher_pii.drivers_license, matcher_pii.passport_id,
              matcher_pii.vin_number, matcher_pii.serial_number,
              matcher_pii.login, matcher_pii.taxpayer_id, matcher_pii.address,
              matcher_pii.signature, matcher_pii.geolocation,
              matcher_pii.education, matcher_pii.financial, matcher_pii.health]
             apply runFieldRule_flip
             intro v
             rfl)
